import Mathlib

/-!
Verification development for the XLSX data-viewer component (`src/App.tsx`).

The component holds six pieces of state (`data`, `filteredData`, `searchTerm`,
`error`, `fileName`, `isLoading`) and three operations:

* `handleFileChange` — parse an uploaded file, validate its headers, and either
  populate the row set or surface an error;
* `filterData` — recompute the visible subset by a case-insensitive substring
  match of the search term against the `Cod.SEC` field;
* `clearFile` — reset the state to its initial empty values.

Spreadsheet cells decoded by `sheet_to_json` are strings or numbers; an absent
cell is `undefined`, modelled by `Option`.
-/

/-- A decoded spreadsheet cell: `sheet_to_json` yields strings or numbers. -/
inductive CellValue where
  | str : String → CellValue
  | num : Int → CellValue
deriving DecidableEq, Repr

/-- JavaScript `.toString()` on a decoded cell value. -/
def CellValue.toStr : CellValue → String
  | .str s => s
  | .num n => toString n

/-- Check whether `needle` occurs in `haystack` as a contiguous run. -/
def charsContain : List Char → List Char → Bool
  | [], needle => needle.isEmpty
  | a :: as, needle => needle.isPrefixOf (a :: as) || charsContain as needle

/-- JavaScript `a.includes(b)`: `b` occurs in `a` as a contiguous substring. -/
def strContains (a b : String) : Bool :=
  charsContain a.toList b.toList

/-- JavaScript `.toLowerCase()`: lowercase every character. -/
def strToLower (s : String) : String :=
  ⟨s.data.map Char.toLower⟩

/-- One typed spreadsheet row (`IRowData` in `src/types.ts`): the five named
fields `NTE`, `Municipio`, `Cod.SEC`, `Nome Escola`, `Valor`.  A field is
`none` when the decoded row object had no entry for it (`undefined`). -/
structure IRowData where
  NTE : Option CellValue
  Municipio : Option CellValue
  codSEC : Option CellValue
  nomeEscola : Option CellValue
  Valor : Option CellValue
deriving DecidableEq, Repr

/-- A raw row object produced by `XLSX.utils.sheet_to_json`: an ordered list of
key/value pairs (the object's own enumerable properties). -/
abbrev JsonRow := List (String × CellValue)

/-- Model of `Object.keys(row)`. -/
def keys (row : JsonRow) : List String := row.map Prod.fst

/-- Constant `expectedHeaders` from `App.tsx`. -/
def expectedHeaders : List String := ["NTE", "Municipio", "Cod.SEC", "Nome Escola", "Valor"]

/-- Check `expectedHeaders.every(header => headers.includes(header))` applied to
the keys of one decoded row. -/
def hasAllHeaders (row : JsonRow) : Bool :=
  expectedHeaders.all (fun header => (keys row).contains header)

/-- Projection of a raw decoded row onto the five expected fields, as in the
`jsonData.map` step of `handleFileChange`; `row['K']` on a missing key is `undefined` (`none`). -/
def typedRow (row : JsonRow) : IRowData :=
  { NTE := row.lookup "NTE"
  , Municipio := row.lookup "Municipio"
  , codSEC := row.lookup "Cod.SEC"
  , nomeEscola := row.lookup "Nome Escola"
  , Valor := row.lookup "Valor" }

/-- The component's state hooks. -/
structure AppState where
  data : List IRowData
  filteredData : List IRowData
  searchTerm : String
  error : Option String
  fileName : Option String
  isLoading : Bool
deriving DecidableEq, Repr

/-- Outcome of the asynchronous file read in `handleFileChange`:
`success` carries the rows decoded by `sheet_to_json`; `parseError` is the
`catch` branch (XLSX decoding threw); `readError` is `reader.onerror`. -/
inductive ReadResult where
  | success : List JsonRow → ReadResult
  | parseError : ReadResult
  | readError : ReadResult
deriving DecidableEq, Repr

/-- Error message of the empty-content branch in `handleFileChange`. -/
def emptyFileMsg : String := "The selected file is empty or in an unsupported format."

/-- Error message of the missing-columns branch in `handleFileChange`. -/
def missingColumnsMsg : String :=
  "The file is missing required columns. Please ensure it has: "
    ++ String.intercalate ", " expectedHeaders ++ "."

/-- Error message of the `catch` branch in `handleFileChange`. -/
def parseErrorMsg : String :=
  "Failed to parse the XLSX file. Please check the file format and try again."

/-- Error message of the `reader.onerror` branch in `handleFileChange`. -/
def readErrorMsg : String := "Failed to read the file."

/-- State transition of `handleFileChange` for a selected file named `name` whose asynchronous read
finished with `result`.  The synchronous prefix sets `isLoading`, clears the
error, stores the file name and empties the row set; the callback then either
populates `data` or surfaces one of the error messages. -/
def handleFileChange (s : AppState) (name : String) (result : ReadResult) : AppState :=
  let s0 : AppState :=
    { s with isLoading := true, error := none, fileName := some name, data := [] }
  match result with
  | .readError =>
      { s0 with error := some readErrorMsg, isLoading := false, fileName := none }
  | .parseError =>
      { s0 with error := some parseErrorMsg, fileName := none, isLoading := false }
  | .success jsonData =>
      match jsonData with
      | [] =>
          { s0 with error := some emptyFileMsg, isLoading := false }
      | first :: rest =>
          if hasAllHeaders first then
            { s0 with data := (first :: rest).map typedRow, isLoading := false }
          else
            { s0 with error := some missingColumnsMsg, isLoading := false, fileName := none }

/-- The `filterData` callback in `App.tsx`, as a pure function of the search
term and the full row set: empty term keeps `data`; otherwise keep the rows
whose `Cod.SEC`, stringified and lowercased, contains the lowercased term
(the optional chaining `item['Cod.SEC']?.` makes a row with no `Cod.SEC`
evaluate to `undefined`, which is falsy). -/
def filterData (searchTerm : String) (data : List IRowData) : List IRowData :=
  if searchTerm = "" then
    data
  else
    let lowercasedFilter := strToLower searchTerm
    data.filter (fun item =>
      match item.codSEC with
      | some v => strContains (strToLower v.toStr) lowercasedFilter
      | none => false)

/-- Function `clearFile` from `App.tsx` (the DOM input reset has no
counterpart in the modelled state). -/
def clearFile (s : AppState) : AppState :=
  { s with data := [], filteredData := [], searchTerm := "", fileName := none, error := none }

/-- The spec's membership predicate for the filter: a function of the
`Cod.SEC` field alone — its stringification, lowercased, contains the
lowercased search text. -/
def codSecFilterKey (codSec : Option CellValue) (searchText : String) : Bool :=
  match codSec with
  | some v => strContains (strToLower v.toStr) (strToLower searchText)
  | none => false

/-- The initial values of the component's six `useState` hooks. -/
def initState : AppState :=
  { data := [], filteredData := [], searchTerm := "", error := none
  , fileName := none, isLoading := false }

/-- Sample typed row whose `Cod.SEC` is the string cell "AB12". -/
def sampleRowA : IRowData :=
  { NTE := some (.num 1), Municipio := some (.str "Salvador")
  , codSEC := some (.str "AB12"), nomeEscola := some (.str "Escola A")
  , Valor := some (.num 100) }

/-- Sample typed row whose `Cod.SEC` is the numeric cell 777. -/
def sampleRowB : IRowData :=
  { NTE := some (.num 2), Municipio := some (.str "Feira")
  , codSEC := some (.num 777), nomeEscola := some (.str "Escola B")
  , Valor := some (.num 200) }

/-- Sample typed row with no `Cod.SEC` entry. -/
def nullRow : IRowData :=
  { NTE := some (.num 3), Municipio := some (.str "Ilheus")
  , codSEC := none, nomeEscola := some (.str "Escola C")
  , Valor := some (.num 300) }

/-- Sample raw decoded row carrying all five expected columns. -/
def goodJsonRow : JsonRow :=
  [("NTE", .num 1), ("Municipio", .str "Salvador"), ("Cod.SEC", .str "AB12")
  , ("Nome Escola", .str "Escola A"), ("Valor", .num 100)]

/-- Sample raw decoded row missing the column "Valor". -/
def badJsonRow : JsonRow :=
  [("NTE", .num 2), ("Municipio", .str "Feira"), ("Cod.SEC", .num 777)
  , ("Nome Escola", .str "Escola B")]

/-- Filtering a list twice by the same Boolean predicate is the same as
filtering once. -/
theorem filter_filter_self {α : Type} (p : α → Bool) (l : List α) :
    (l.filter p).filter p = l.filter p := by
  induction l with
  | nil => rfl
  | cons a t ih =>
    cases hp : p a <;> simp [List.filter_cons, hp, ih]

/-- C1: for every non-empty search text, `filterData` returns exactly the rows
selected by the spec predicate `codSecFilterKey`, a function of the row's
`Cod.SEC` field alone (so no other field influences membership): the field's
stringification, lowercased, must contain the lowercased search text. -/
theorem c1_filter_is_codsec_substring (data : List IRowData) (searchTerm : String)
    (h : searchTerm ≠ "") :
    filterData searchTerm data
      = data.filter (fun row => codSecFilterKey row.codSEC searchTerm) := by
  unfold filterData
  rw [if_neg h]
  apply List.filter_congr
  intro item _
  cases hc : item.codSEC <;> simp [codSecFilterKey, hc]

/-- Witness for C1 on a concrete list: the search text "b1" keeps exactly the
rows whose lowercased `Cod.SEC` contains "b1". -/
theorem c1_filter_is_codsec_substring_witness :
    ("b1" : String) ≠ ""
    ∧ filterData "b1" [sampleRowA, sampleRowB, nullRow]
        = ([sampleRowA, sampleRowB, nullRow]).filter
            (fun row => codSecFilterKey row.codSEC "b1")
    ∧ filterData "b1" [sampleRowA, sampleRowB, nullRow] = [sampleRowA] :=
  ⟨by decide, c1_filter_is_codsec_substring [sampleRowA, sampleRowB, nullRow] "b1" (by decide),
    by decide⟩

/-- C2: with the empty search text, `filterData` returns the full row set
unchanged, so the displayed row count equals the parsed row count. -/
theorem c2_empty_search_keeps_all (data : List IRowData) :
    filterData "" data = data ∧ (filterData "" data).length = data.length := by
  constructor <;> simp [filterData]

/-- C7: `filterData` is idempotent — filtering an already-filtered list by the
same term yields the same list. -/
theorem c7_filter_idempotent (searchTerm : String) (data : List IRowData) :
    filterData searchTerm (filterData searchTerm data) = filterData searchTerm data := by
  unfold filterData
  by_cases h : searchTerm = ""
  · simp [h]
  · simp only [if_neg h]
    exact filter_filter_self _ data

/-- C10: the filtered list is a sublist of the full row set — filtering never
reorders, duplicates, or modifies rows. -/
theorem c10_filter_sublist (searchTerm : String) (data : List IRowData) :
    (filterData searchTerm data).Sublist data := by
  unfold filterData
  by_cases h : searchTerm = ""
  · simp [h]
  · simp only [if_neg h]
    exact List.filter_sublist data

/-- C9: for a non-empty search text, a row with no `Cod.SEC` entry never
appears in the filtered list (the optional-chaining guard makes it evaluate
to false rather than fault). -/
theorem c9_null_codsec_never_matches (searchTerm : String) (data : List IRowData)
    (row : IRowData) (hterm : searchTerm ≠ "") (hnull : row.codSEC = none) :
    row ∉ filterData searchTerm data := by
  unfold filterData
  rw [if_neg hterm]
  intro hmem
  have hmatch := (List.mem_filter.mp hmem).2
  rw [hnull] at hmatch
  exact Bool.noConfusion hmatch

/-- Witness for C9: the row with no `Cod.SEC` is excluded when searching "7",
even though other rows match. -/
theorem c9_null_codsec_never_matches_witness :
    ("7" : String) ≠ "" ∧ nullRow.codSEC = none
    ∧ nullRow ∉ filterData "7" [nullRow, sampleRowB] :=
  ⟨by decide, rfl, c9_null_codsec_never_matches "7" [nullRow, sampleRowB] nullRow (by decide) rfl⟩

/-- C6: `clearFile` resets row set, filtered set, search text, filename and
error to their initial empty values from any state. -/
theorem c6_clear_file_resets (s : AppState) :
    (clearFile s).data = [] ∧ (clearFile s).filteredData = []
    ∧ (clearFile s).searchTerm = "" ∧ (clearFile s).fileName = none
    ∧ (clearFile s).error = none :=
  ⟨rfl, rfl, rfl, rfl, rfl⟩

/-- A required column absent from a row's keys falsifies the header check. -/
theorem hasAllHeaders_eq_false_of_missing (row : JsonRow) (header : String)
    (hexp : header ∈ expectedHeaders) (hmiss : header ∉ keys row) :
    hasAllHeaders row = false := by
  unfold hasAllHeaders
  rw [List.all_eq_false]
  exact ⟨header, hexp, by simpa using hmiss⟩

/-- C3: a decoded file with at least one row is accepted — the row set becomes
the projection of every decoded row and no error is set — exactly when the
first row's keys contain all five expected column names; otherwise the
missing-columns error is surfaced and no rows are populated. -/
theorem c3_accept_iff_all_headers (s : AppState) (name : String)
    (first : JsonRow) (rest : List JsonRow) :
    ((handleFileChange s name (.success (first :: rest))).data
          = (first :: rest).map typedRow
        ∧ (handleFileChange s name (.success (first :: rest))).error = none
      ↔ hasAllHeaders first = true)
    ∧ (hasAllHeaders first = false →
        (handleFileChange s name (.success (first :: rest))).data = []
        ∧ (handleFileChange s name (.success (first :: rest))).error
            = some missingColumnsMsg) := by
  unfold handleFileChange
  cases h : hasAllHeaders first <;> simp [h]

/-- Witness for C3: a one-row file with all five columns is accepted whole. -/
theorem c3_accept_iff_all_headers_witness :
    (handleFileChange initState "dados.xlsx" (.success [goodJsonRow])).data
        = [goodJsonRow].map typedRow
    ∧ (handleFileChange initState "dados.xlsx" (.success [goodJsonRow])).error = none :=
  ((c3_accept_iff_all_headers initState "dados.xlsx" goodJsonRow []).1).mpr (by decide)

/-- C4: a decoded file none of whose rows carries some required column
surfaces the missing-columns error and leaves the row set empty. -/
theorem c4_missing_column_error (s : AppState) (name : String)
    (first : JsonRow) (rest : List JsonRow) (header : String)
    (hexp : header ∈ expectedHeaders)
    (hmiss : ∀ row ∈ first :: rest, header ∉ keys row) :
    (handleFileChange s name (.success (first :: rest))).error = some missingColumnsMsg
    ∧ (handleFileChange s name (.success (first :: rest))).data = [] := by
  have hfalse := hasAllHeaders_eq_false_of_missing first header hexp
    (hmiss first (List.mem_cons_self _ _))
  unfold handleFileChange
  simp [hfalse]

/-- Witness for C4: a file whose single row lacks the column "Valor". -/
theorem c4_missing_column_error_witness :
    (handleFileChange initState "dados4.xlsx" (.success [badJsonRow])).error
        = some missingColumnsMsg
    ∧ (handleFileChange initState "dados4.xlsx" (.success [badJsonRow])).data = [] :=
  c4_missing_column_error initState "dados4.xlsx" badJsonRow [] "Valor" (by decide) (by decide)

/-- C8: header validation inspects only the first decoded row — whenever the
first row lacks a required column the file is rejected with the
missing-columns error, for every choice of later rows. -/
theorem c8_first_row_only (s : AppState) (name : String) (first : JsonRow)
    (rest : List JsonRow) (header : String) (hexp : header ∈ expectedHeaders)
    (hmiss : header ∉ keys first) :
    (handleFileChange s name (.success (first :: rest))).error = some missingColumnsMsg
    ∧ (handleFileChange s name (.success (first :: rest))).data = [] := by
  have hfalse := hasAllHeaders_eq_false_of_missing first header hexp hmiss
  unfold handleFileChange
  simp [hfalse]

/-- Witness for C8: the first row lacks "Valor", a later row carries all five
columns, and the file is still rejected. -/
theorem c8_first_row_only_witness :
    ("Valor" : String) ∈ keys goodJsonRow
    ∧ (handleFileChange initState "dados8.xlsx" (.success [badJsonRow, goodJsonRow])).error
        = some missingColumnsMsg
    ∧ (handleFileChange initState "dados8.xlsx" (.success [badJsonRow, goodJsonRow])).data
        = [] :=
  ⟨by decide,
    c8_first_row_only initState "dados8.xlsx" badJsonRow [goodJsonRow] "Valor"
      (by decide) (by decide)⟩

/-- C5 counterexample: in the empty-content error branch the stored filename
is not cleared — it still holds the selected file's name after the error. -/
theorem c5_counterexample_filename_kept :
    (handleFileChange initState "relatorio.xlsx" (.success [])).error = some emptyFileMsg
    ∧ (handleFileChange initState "relatorio.xlsx" (.success [])).data = []
    ∧ (handleFileChange initState "relatorio.xlsx" (.success [])).fileName
        = some "relatorio.xlsx" :=
  ⟨rfl, rfl, rfl⟩

/-- C5 (amended): every error branch is non-fatal and leaves the row set
empty; the parse-failure, missing-columns and read-failure branches also
clear the stored filename, while the empty-content branch keeps it. -/
theorem c5_error_branches_amended (s : AppState) (name : String)
    (first : JsonRow) (rest : List JsonRow) (h : hasAllHeaders first = false) :
    ((handleFileChange s name .parseError).data = []
      ∧ (handleFileChange s name .parseError).fileName = none
      ∧ (handleFileChange s name .parseError).error = some parseErrorMsg)
    ∧ ((handleFileChange s name .readError).data = []
      ∧ (handleFileChange s name .readError).fileName = none
      ∧ (handleFileChange s name .readError).error = some readErrorMsg)
    ∧ ((handleFileChange s name (.success (first :: rest))).data = []
      ∧ (handleFileChange s name (.success (first :: rest))).fileName = none
      ∧ (handleFileChange s name (.success (first :: rest))).error
          = some missingColumnsMsg)
    ∧ ((handleFileChange s name (.success [])).data = []
      ∧ (handleFileChange s name (.success [])).fileName = some name
      ∧ (handleFileChange s name (.success [])).error = some emptyFileMsg) := by
  unfold handleFileChange
  simp [h]

/-- Witness for C5 (amended) on concrete inputs: three branches clear the
filename, the empty-content branch keeps it. -/
theorem c5_error_branches_amended_witness :
    (handleFileChange initState "planilha.xlsx" .parseError).fileName = none
    ∧ (handleFileChange initState "planilha.xlsx" .readError).fileName = none
    ∧ (handleFileChange initState "planilha.xlsx" (.success [badJsonRow])).fileName = none
    ∧ (handleFileChange initState "planilha.xlsx" (.success [])).fileName
        = some "planilha.xlsx" := by
  have h := c5_error_branches_amended initState "planilha.xlsx" badJsonRow [] (by decide)
  exact ⟨h.1.2.1, h.2.1.2.1, h.2.2.1.2.1, h.2.2.2.2.1⟩
